import Mathlib

/-!
# Verification of the Azure DevOps work-item proxy (`src/api/index.py`)

Shallow embedding of the FastAPI proxy in `src/api/index.py`.  The service
exposes `GET /projects` and `POST /bugs`; both read configuration from the
environment, perform outbound HTTP calls to Azure DevOps, and translate the
upstream responses.  We model:

* JSON values (`JValue`) as carried in request/response bodies.  Python floats
  are pass-through payload here (never computed with), so they are carried by
  an exact numeral type `Rat`;
* the request model `BugCreateRequest` and its pydantic validation
  (`priority` bound, the `fechaInicioPlaneada` validator which calls
  `datetime.strptime(v, "%Y-%m-%d")`, and the third-party `EmailStr`
  validator, which lives outside this repository and is therefore a parameter
  `emailOk`);
* the upstream oracle responses as explicit arguments, and the outbound calls
  actually performed as an explicit trace (`List Call`), so that
  "no network call is made" is a provable statement;
* the helper `find_user_principal_name` and the two endpoint handlers.

Unhandled Python exceptions (e.g. `resp.json()` raising on a non-JSON body in
a success path of `/projects`) are modelled as `none` results.
-/

/-- JSON-like values carried in bodies and patch operations.  Strings coming
from `EmailStr` fields are plain strings here.  Floats are carried as exact
rationals because the proxy never computes with them. -/
inductive JValue where
  | s : String → JValue
  | i : Int → JValue
  | f : Rat → JValue
  | b : Bool → JValue
  | null : JValue
  | arr : List JValue → JValue
  | obj : List (String × JValue) → JValue

/-- One element of the JSON-Patch document sent to the work-item creation
endpoint: `{"op": ..., "path": ..., "value": ...}` (lines 183-266). -/
structure PatchOp where
  op : String
  path : String
  value : JValue

/-- The `BugCreateRequest` pydantic model (lines 48-73), after validation.
`assignedTo` / `responsableBug` are `EmailStr` in the source; they are strings
here and their validation is the `emailOk` parameter of
`validateBugRequest`. -/
structure BugCreateRequest where
  project : String
  userStoryId : Int
  title : String
  assignedTo : String
  reproSteps : String
  effort : Rat
  cliente : String
  priority : Int
  severity : String
  activity : String
  tipoDeError : String
  fechaInicioPlaneada : String
  responsableBug : String
  aplicacion : String
  tareaAsociada : Int
  versionAplicacion : String
  funcionalidad : String
deriving DecidableEq, Repr

namespace ProxyApi

/-! ## Date validation: `datetime.strptime(v, "%Y-%m-%d")`

CPython's `_strptime` compiles `%Y-%m-%d` to the anchored regex
`(?P<Y>\d\d\d\d)-(?P<m>1[0-2]|0[1-9]|[1-9])-(?P<d>3[0-1]|[1-2]\d|0[1-9]|[1-9]| [1-9])`
and requires the whole string to be consumed; then `datetime(y, m, d)`
additionally requires `y ≥ 1` and `d` to be a valid day of the month.
Note the month and the day may be written with ONE digit ("2024-1-5" parses),
and the day alternative ` [1-9]` additionally admits a BLANK-PADDED single
digit ("2024-01- 5" parses, since `int(" 5")` is 5).
Digits are modelled as ASCII digits. -/

/-- Numeric value of an ASCII digit, `none` otherwise. -/
def digitVal (c : Char) : Option Nat :=
  if '0' ≤ c ∧ c ≤ '9' then some (c.toNat - 48) else none

/-- Two-digit month alternatives of the regex: `1[0-2]|0[1-9]`. -/
def month2 (a b : Char) : Option Nat :=
  match digitVal a, digitVal b with
  | some x, some y =>
      if (x = 1 ∧ y ≤ 2) ∨ (x = 0 ∧ 1 ≤ y) then some (10 * x + y) else none
  | _, _ => none

/-- One-digit month alternative of the regex: `[1-9]`. -/
def month1 (a : Char) : Option Nat :=
  match digitVal a with
  | some x => if 1 ≤ x then some x else none
  | none => none

/-- Two-character day alternatives of the regex:
`3[0-1]|[1-2]\d|0[1-9]`, plus the blank-padded alternative ` [1-9]`
(space followed by a nonzero digit, kept by CPython "to make %c from
ANSI C work"). -/
def day2 (a b : Char) : Option Nat :=
  if a = ' ' then
    match digitVal b with
    | some y => if 1 ≤ y then some y else none
    | none => none
  else
    match digitVal a, digitVal b with
    | some x, some y =>
        if (x = 3 ∧ y ≤ 1) ∨ x = 1 ∨ x = 2 ∨ (x = 0 ∧ 1 ≤ y) then
          some (10 * x + y)
        else none
    | _, _ => none

/-- One-digit day alternative of the regex: `[1-9]`. -/
def day1 (a : Char) : Option Nat :=
  match digitVal a with
  | some x => if 1 ≤ x then some x else none
  | none => none

/-- Four-digit year `\d\d\d\d`. -/
def year4 (a b c d : Char) : Option Nat :=
  match digitVal a, digitVal b, digitVal c, digitVal d with
  | some w, some x, some y, some z => some (1000 * w + 100 * x + 10 * y + z)
  | _, _, _, _ => none

/-- Month-"-"-day part after the year.  The month slot is one or two digits;
the day slot is one character (`[1-9]`) or two characters
(`3[0-1]|[1-2]\d|0[1-9]| [1-9]`, the last being the blank-padded day).  The
regex alternation with backtracking accepts exactly when one of the four
character-count decompositions matches, so ordered alternation over the
shapes is acceptance-equivalent. -/
def parseMD (rest : List Char) : Option (Nat × Nat) :=
  (match rest with
   | [e, f, '-', g, h] =>
     match month2 e f, day2 g h with
     | some m, some d => some (m, d)
     | _, _ => none
   | _ => none) <|>
  (match rest with
   | [e, f, '-', g] =>
     match month2 e f, day1 g with
     | some m, some d => some (m, d)
     | _, _ => none
   | _ => none) <|>
  (match rest with
   | [e, '-', g, h] =>
     match month1 e, day2 g h with
     | some m, some d => some (m, d)
     | _, _ => none
   | _ => none) <|>
  (match rest with
   | [e, '-', g] =>
     match month1 e, day1 g with
     | some m, some d => some (m, d)
     | _, _ => none
   | _ => none)

/-- The full `%Y-%m-%d` regex match over the whole string. -/
def parseYmd (cs : List Char) : Option (Nat × Nat × Nat) :=
  match cs with
  | a :: b :: c :: d :: '-' :: rest =>
    match year4 a b c d with
    | some y =>
      match parseMD rest with
      | some (m, d) => some (y, m, d)
      | none => none
    | none => none
  | _ => none

/-- Gregorian leap year, as `datetime` uses. -/
def isLeap (y : Nat) : Bool := y % 4 = 0 ∧ (y % 100 ≠ 0 ∨ y % 400 = 0)

/-- Number of days of month `m` of year `y` (for `1 ≤ m ≤ 12`). -/
def daysInMonth (y m : Nat) : Nat :=
  if m = 2 then (if isLeap y then 29 else 28)
  else if m = 4 ∨ m = 6 ∨ m = 9 ∨ m = 11 then 30
  else 31

/-- `datetime.strptime(v, "%Y-%m-%d")` succeeds: the regex matches the whole
string and the resulting triple is a valid `datetime` date (`MINYEAR = 1`). -/
def strptimeYmdOk (v : String) : Bool :=
  match parseYmd v.toList with
  | some (y, m, d) => 1 ≤ y ∧ d ≤ daysInMonth y m
  | none => false

/-! ## Configuration (`get_azure_config`, lines 31-38) -/

/-- The two environment variables read by `get_azure_config`;
`os.getenv` yields `none` when the variable is unset. -/
structure Env where
  org : Option String
  pat : Option String
deriving DecidableEq, Repr

/-- The `RuntimeError` message of `get_azure_config`. -/
def configErrorMsg : String :=
  "Error: El servidor no tiene la configuración necesaria (AZURE_DEVOPS_ORG, AZURE_DEVOPS_PAT)."

/-- `get_azure_config` (lines 31-38): `if not org or not pat: raise`.
Python truthiness makes both an unset variable (`None`) and an empty string
falsy. -/
def get_azure_config (e : Env) : Except String (String × String) :=
  let org := e.org.getD ""
  let pat := e.pat.getD ""
  if org = "" ∨ pat = "" then .error configErrorMsg else .ok (org, pat)

/-! ## Tester lookup (`find_user_principal_name`, lines 125-156)

The entitlements response body is modelled already parsed: one record per
element of the iterated `users` collection, holding the four string fields the
loop reads.  `none` is an absent JSON field; `some ""` is a present empty
string (both are falsy in Python). -/

/-- One element of the `members`/`value` array of the user-entitlements
response; `displayName`, `principalName`, `mailAddress` live under the nested
`"user"` object, `name` at the top level. -/
structure UserRecord where
  displayName : Option String
  name : Option String
  principalName : Option String
  mailAddress : Option String
deriving DecidableEq, Repr

/-- Parsed user-entitlements response body: the `members` and `value` keys
(each an optional array of user records). -/
structure EntitlementsData where
  members : Option (List UserRecord)
  value : Option (List UserRecord)
deriving DecidableEq, Repr

/-- Python truthiness on an optional string: `None` and `""` are falsy. -/
def truthyStr : Option String → Option String
  | some s => if s = "" then none else some s
  | none => none

/-- Python `x or default` where `x` is an optional string. -/
def pyOrStr (x : Option String) (default : String) : String :=
  match truthyStr x with
  | some s => s
  | none => default

/-- Python `x or y` where `x`, `y` are optional lists (`[]` is falsy). -/
def pyOrList (x : Option (List UserRecord)) (y : List UserRecord) :
    List UserRecord :=
  match x with
  | some l => if l.isEmpty then y else l
  | none => y

/-- `users = data.get("members") or data.get("value") or []` (line 144). -/
def extractUsers (d : EntitlementsData) : List UserRecord :=
  pyOrList d.members (pyOrList d.value [])

/-- `name = user.get("user", {}).get("displayName") or user.get("name", "")`
(line 147). -/
def effectiveName (u : UserRecord) : String :=
  pyOrStr u.displayName (u.name.getD "")

/-- Surrounding whitespace removed from a character list. -/
def stripChars (cs : List Char) : List Char :=
  ((cs.dropWhile Char.isWhitespace).reverse.dropWhile Char.isWhitespace).reverse

/-- `s.strip().lower()` (line 148): surrounding whitespace stripped, then
lowercased (letters modelled per `Char.toLower`). -/
def stripLower (s : String) : String :=
  ⟨(stripChars s.data).map Char.toLower⟩

/-- The loop of `find_user_principal_name` (lines 146-156): first user whose
effective name matches case-insensitively yields its truthy `principalName`,
else its truthy `mailAddress`; with neither, the iteration continues. -/
def lookupUser (users : List UserRecord) (display_name : String) :
    Option String :=
  match users with
  | [] => none
  | u :: rest =>
    if stripLower (effectiveName u) = stripLower display_name then
      match truthyStr u.principalName with
      | some p => some p
      | none =>
        match truthyStr u.mailAddress with
        | some m => some m
        | none => lookupUser rest display_name
    else lookupUser rest display_name

/-- Upstream response to the entitlements lookup call: HTTP status plus the
parsed JSON body (a non-JSON body would raise out of `resp.json()` in Python
and is not modelled). -/
structure LookupResp where
  status : Nat
  data : EntitlementsData
deriving DecidableEq, Repr

/-- `find_user_principal_name` (lines 125-156): any upstream status ≥ 400
yields `None` (lines 140-141), otherwise the body is scanned. -/
def find_user_principal_name (resp : LookupResp) (display_name : String) :
    Option String :=
  if resp.status ≥ 400 then none
  else lookupUser (extractUsers resp.data) display_name

/-- The hard-coded tester display name (line 165). -/
def TESTER_NAME : String := "Antony Daniel Gutierrez Salgado"

/-! ## Upstream responses and endpoint results -/

/-- An upstream HTTP response body as the handlers see it: either `resp.json()`
parses to a value, or it raises and only `resp.text` is available. -/
inductive RespBody where
  | json : JValue → RespBody
  | text : String → RespBody

/-- An upstream HTTP response: status code plus body. -/
structure UpstreamResp where
  status : Nat
  body : RespBody

/-- `try: content = resp.json() except: content = {"raw_text": resp.text}`
(lines 108-111 and 272-275). -/
def parsedOrRaw : RespBody → JValue
  | .json j => j
  | .text t => .obj [("raw_text", .s t)]

/-- One outbound network call performed by a handler, with the payload that
matters to the spec (the lookup's searched display name, the creation call's
JSON-Patch document). -/
inductive Call where
  | projectsFetch
  | entitlementsLookup (display_name : String)
  | bugCreate (ops : List PatchOp)

/-- An inbound HTTP response produced by the service: status plus JSON body. -/
structure HttpResponse where
  status : Nat
  body : JValue

/-- `GET /projects` (lines 94-121), given the environment and the upstream
response as an oracle.  Result: the response produced (or `none` where Python
would raise an unhandled exception — a non-JSON body on a success status),
paired with the trace of outbound calls made. -/
def list_projects (e : Env) (resp : UpstreamResp) :
    Option HttpResponse × List Call :=
  match get_azure_config e with
  | .error m => (some ⟨500, .obj [("detail", .s m)]⟩, [])
  | .ok _ =>
    if resp.status ≥ 400 then
      (some ⟨502, .obj [("detail", .obj
        [("message", .s "Azure DevOps API error fetching projects"),
         ("azure_status", .i resp.status),
         ("azure_response", parsedOrRaw resp.body)])]⟩, [.projectsFetch])
    else
      match resp.body with
      | .json j => (some ⟨200, j⟩, [.projectsFetch])
      | .text _ => (none, [.projectsFetch])

/-- The JSON-Patch document built by `create_bug` (lines 164 and 183-266),
in source order.  `fecha_con_hora` is the line-164 concatenation; the last
entry is the parent-link relation operation. -/
def patch_ops (req : BugCreateRequest) (org tester_principal : String) :
    List PatchOp :=
  let fecha_con_hora := req.fechaInicioPlaneada ++ "T00:00:00-05:00"
  [⟨"add", "/fields/System.Title", .s req.title⟩,
   ⟨"add", "/fields/System.AssignedTo", .s req.assignedTo⟩,
   ⟨"add", "/fields/Microsoft.VSTS.TCM.ReproSteps", .s req.reproSteps⟩,
   ⟨"add", "/fields/Microsoft.VSTS.Scheduling.Effort", .f req.effort⟩,
   ⟨"add", "/fields/Microsoft.VSTS.Common.Priority", .i req.priority⟩,
   ⟨"add", "/fields/Microsoft.VSTS.Common.Severity", .s req.severity⟩,
   ⟨"add", "/fields/Microsoft.VSTS.Common.Activity", .s req.activity⟩,
   ⟨"add", "/fields/Microsoft.VSTS.Common.ValueArea", .s "Business"⟩,
   ⟨"add", "/fields/Custom.Tester", .s tester_principal⟩,
   ⟨"add", "/fields/Custom.Cliente", .s req.cliente⟩,
   ⟨"add", "/fields/Custom.Tipodeerror", .s req.tipoDeError⟩,
   ⟨"add", "/fields/Custom.FechaInicioPlaneada", .s fecha_con_hora⟩,
   ⟨"add", "/fields/Custom.ResponsableBug", .s req.responsableBug⟩,
   ⟨"add", "/fields/Custom.33ece249-f3ca-4b23-a86a-0c605534caa3",
     .s req.aplicacion⟩,
   ⟨"add", "/fields/Custom.Tareaasociada", .s (toString req.tareaAsociada)⟩,
   ⟨"add", "/fields/Custom.f82dc49a-eb67-44c3-ac65-de18fee91f0b",
     .s req.versionAplicacion⟩,
   ⟨"add", "/fields/Custom.Funcionalidadquepresentaelerror",
     .s req.funcionalidad⟩,
   ⟨"add", "/relations/-", .obj
     [("rel", .s "System.LinkTypes.Hierarchy-Reverse"),
      ("url", .s ("https://dev.azure.com/" ++ org ++ "/" ++ req.project ++
        "/_apis/wit/workItems/" ++ toString req.userStoryId)),
      ("attributes", .obj [("comment", .s "Parent User Story")])]⟩]

/-- The 404 detail string of `create_bug` (lines 169-172). -/
def testerNotFoundMsg : String :=
  "No se pudo encontrar el usuario Tester '" ++ TESTER_NAME ++
    "' en la organización de Azure DevOps."

/-- The `POST /bugs` handler body (`create_bug`, lines 161-290), after request
validation: config check, tester lookup, creation call, response mapping.
`lookup` and `create` are the upstream oracles for the two outbound calls. -/
def create_bug (e : Env) (req : BugCreateRequest) (lookup : LookupResp)
    (create : UpstreamResp) : Option HttpResponse × List Call :=
  match get_azure_config e with
  | .error m => (some ⟨500, .obj [("detail", .s m)]⟩, [])
  | .ok (org, _pat) =>
    match find_user_principal_name lookup TESTER_NAME with
    | none =>
      (some ⟨404, .obj [("detail", .s testerNotFoundMsg)]⟩,
       [.entitlementsLookup TESTER_NAME])
    | some tester_principal =>
      let sent := patch_ops req org tester_principal
      if create.status ≥ 400 then
        (some ⟨502, .obj [("detail", .obj
          [("message", .s "Azure DevOps API error creating bug"),
           ("azure_status", .i create.status),
           ("azure_response", parsedOrRaw create.body)])]⟩,
         [.entitlementsLookup TESTER_NAME, .bugCreate sent])
      else
        match create.body with
        | .json j =>
          (some ⟨201, j⟩, [.entitlementsLookup TESTER_NAME, .bugCreate sent])
        | .text t =>
          (some ⟨201, .obj [("raw_text", .s t)]⟩,
           [.entitlementsLookup TESTER_NAME, .bugCreate sent])

/-- Pydantic validation of `BugCreateRequest` (lines 48-73): the
`Field(..., ge=1, le=4)` bound on `priority`, the `validate_fecha` validator,
and the two `EmailStr` fields.  `EmailStr` is validated by the third-party
`email-validator` package, which is not part of this repository, so it is a
parameter `emailOk`. -/
def validateBugRequest (emailOk : String → Bool) (r : BugCreateRequest) :
    Bool :=
  decide (1 ≤ r.priority) && decide (r.priority ≤ 4) &&
    strptimeYmdOk r.fechaInicioPlaneada &&
    emailOk r.assignedTo && emailOk r.responsableBug

/-- Body of FastAPI's 422 response to a request-validation failure (the
per-field error entries are not modelled). -/
def validationErrorBody : JValue := .obj [("detail", .arr [])]

/-- The full `POST /bugs` pipeline: FastAPI validates the body against
`BugCreateRequest` before the handler runs; an invalid body is answered 422
with no outbound call. -/
def postBugs (emailOk : String → Bool) (e : Env) (r : BugCreateRequest)
    (lookup : LookupResp) (create : UpstreamResp) :
    Option HttpResponse × List Call :=
  if validateBugRequest emailOk r then create_bug e r lookup create
  else (some ⟨422, validationErrorBody⟩, [])

/-! ## Spec-side definitions (for refinement comparisons only)

These follow the words of the specification, not the source, and exist to be
compared with the source-derived definitions above. -/

/-- Spec-side definition of the strict `YYYY-MM-DD` date format named by the
spec: four digits, hyphen, two digits, hyphen, two digits. -/
def specDateFormatYMD (s : String) : Bool :=
  match s.toList with
  | [a, b, c, d, '-', e, f, '-', g, h] =>
    [a, b, c, d, e, f, g, h].all fun ch => decide ('0' ≤ ch ∧ ch ≤ '9')
  | _ => false

/-- The upstream field paths whose patch-operation value is drawn from a
`BugCreateRequest` input field ("mapped input fields"): every entry of
`patch_ops` except the constant `ValueArea` operation, the resolved-tester
operation, and the parent-link relation operation. -/
def mappedInputFieldPaths : List String :=
  ["/fields/System.Title",
   "/fields/System.AssignedTo",
   "/fields/Microsoft.VSTS.TCM.ReproSteps",
   "/fields/Microsoft.VSTS.Scheduling.Effort",
   "/fields/Microsoft.VSTS.Common.Priority",
   "/fields/Microsoft.VSTS.Common.Severity",
   "/fields/Microsoft.VSTS.Common.Activity",
   "/fields/Custom.Cliente",
   "/fields/Custom.Tipodeerror",
   "/fields/Custom.FechaInicioPlaneada",
   "/fields/Custom.ResponsableBug",
   "/fields/Custom.33ece249-f3ca-4b23-a86a-0c605534caa3",
   "/fields/Custom.Tareaasociada",
   "/fields/Custom.f82dc49a-eb67-44c3-ac65-de18fee91f0b",
   "/fields/Custom.Funcionalidadquepresentaelerror"]

/-! ## Concrete fixtures for witnesses and counterexamples -/

/-- A fully-configured environment. -/
def envA : Env := ⟨some "myorg", some "pat123"⟩

/-- An environment with the organization variable unset. -/
def envNoOrg : Env := ⟨none, some "pat123"⟩

/-- A valid bug-creation request. -/
def reqA : BugCreateRequest :=
  ⟨"Proj", 77, "Login fails", "a@x.com", "steps", 2, "Acme", 2, "2 - High",
   "Testing", "UI", "2024-01-05", "r@x.com", "App", 55, "1.0", "Search"⟩

/-- `reqA` with an out-of-range priority. -/
def reqPrio5 : BugCreateRequest := { reqA with priority := 5 }

/-- `reqA` with a one-digit month and day in the planned-start date. -/
def reqFecha15 : BugCreateRequest := { reqA with fechaInicioPlaneada := "2024-1-5" }

/-- `reqA` with a date the `strptime` call rejects. -/
def reqBadFecha : BugCreateRequest :=
  { reqA with fechaInicioPlaneada := "2024/01/05" }

/-- An entitlements response whose single member is the tester, with
`principalName` `"t@x.com"`. -/
def lookupOk : LookupResp :=
  ⟨200, ⟨some [⟨some TESTER_NAME, none, some "t@x.com", none⟩], none⟩⟩

/-- An entitlements response containing only a non-matching user. -/
def lookupMiss : LookupResp :=
  ⟨200, ⟨some [⟨some "Other Person", some "", none, some "o@x.com"⟩], none⟩⟩

/-- A creation-call response: status 200, body `{"id": 123}`. -/
def createOk : UpstreamResp := ⟨200, .json (.obj [("id", .i 123)])⟩

/-- A user record matching the tester name after stripping and lowercasing,
with no truthy `principalName` or `mailAddress`. -/
def matchNoId : UserRecord :=
  ⟨some "  ANTONY DANIEL gutierrez salgado  ", none, none, some ""⟩

/-- A matching user record (whitespace/case variant) with a truthy
`principalName` and a truthy `mailAddress`. -/
def userFull : UserRecord :=
  ⟨some " Antony daniel Gutierrez SALGADO ", none, some "apn@x.com",
   some "m@x.com"⟩

/-- A matching user record whose `principalName` is present but empty (falsy)
and whose `mailAddress` is truthy. -/
def userNoPrincipal : UserRecord :=
  ⟨some "antony daniel gutierrez salgado", some "x", some "", some "m2@x.com"⟩

/-! ## Helper lemmas -/

/-- If no user of the list matches the searched name (after stripping and
lowercasing), the lookup loop returns `none`. -/
theorem lookupUser_eq_none_of_no_match (users : List UserRecord) (dn : String)
    (h : ∀ u ∈ users, stripLower (effectiveName u) ≠ stripLower dn) :
    lookupUser users dn = none := by
  induction users with
  | nil => rfl
  | cons u rest ih =>
    have hu : stripLower (effectiveName u) ≠ stripLower dn := h u (by simp)
    have hrest : ∀ v ∈ rest, stripLower (effectiveName v) ≠ stripLower dn :=
      fun v hv => h v (by simp [hv])
    simp [lookupUser, hu, ih hrest]

/-! ## Claims -/

/-- C4: every accepted `BugCreateRequest` satisfies `1 ≤ priority ≤ 4`, and a
`POST /bugs` request with priority outside `[1,4]` is rejected by validation
with a 422 and never reaches the handler (no outbound call). -/
theorem c4_priority_bounded (emailOk : String → Bool) (r : BugCreateRequest)
    (e : Env) (lookup : LookupResp) (create : UpstreamResp) :
    (validateBugRequest emailOk r = true → 1 ≤ r.priority ∧ r.priority ≤ 4) ∧
    (r.priority < 1 ∨ 4 < r.priority →
      postBugs emailOk e r lookup create =
        (some ⟨422, validationErrorBody⟩, [])) := by
  constructor
  · intro hv
    unfold validateBugRequest at hv
    simp only [Bool.and_eq_true, decide_eq_true_iff] at hv
    tauto
  · intro hp
    have hval : validateBugRequest emailOk r = false := by
      unfold validateBugRequest
      rcases hp with h | h
      · have h1 : decide (1 ≤ r.priority) = false := by
          simp only [decide_eq_false_iff_not]; omega
        simp [h1]
      · have h1 : decide (r.priority ≤ 4) = false := by
          simp only [decide_eq_false_iff_not]; omega
        simp [h1]
    simp [postBugs, hval]

/-- C4 witness: `reqA` is accepted and has priority in `[1,4]`; `reqPrio5`
(priority 5) is answered 422 with no outbound call. -/
theorem c4_priority_bounded_witness :
    (1 ≤ reqA.priority ∧ reqA.priority ≤ 4) ∧
    postBugs (fun _ => true) envA reqPrio5 lookupOk createOk =
      (some ⟨422, validationErrorBody⟩, []) :=
  ⟨(c4_priority_bounded (fun _ => true) reqA envA lookupOk createOk).1
      (by decide),
   (c4_priority_bounded (fun _ => true) reqPrio5 envA lookupOk createOk).2
      (by decide)⟩

/-- C3 counterexample: the string `"2024-1-5"` does not match the four-digit
`YYYY-MM-DD` shape, yet a request carrying it is NOT rejected: both outbound
calls are made and the creation result is returned. -/
theorem c3_counterexample :
    specDateFormatYMD "2024-1-5" = false ∧
    postBugs (fun _ => true) envA reqFecha15 lookupOk createOk =
      (some ⟨201, .obj [("id", .i 123)]⟩,
       [.entitlementsLookup TESTER_NAME,
        .bugCreate (patch_ops reqFecha15 "myorg" "t@x.com")]) := by
  refine ⟨by decide, ?_⟩
  rfl

/-- C3 (amended): a `fechaInicioPlaneada` rejected by
`datetime.strptime(v, "%Y-%m-%d")` — which accepts a four-digit year, a one-
or two-digit month, and a one-digit, two-digit or blank-padded single-digit
day, denoting a valid calendar date — is answered 422 by validation before
any outbound network call (zero calls). -/
theorem c3_bad_date_rejected (emailOk : String → Bool) (e : Env)
    (r : BugCreateRequest) (lookup : LookupResp) (create : UpstreamResp)
    (h : strptimeYmdOk r.fechaInicioPlaneada = false) :
    postBugs emailOk e r lookup create =
      (some ⟨422, validationErrorBody⟩, []) := by
  have hval : validateBugRequest emailOk r = false := by
    unfold validateBugRequest; simp [h]
  simp [postBugs, hval]

/-- C3 witness: `"2024/01/05"` fails the date validator, and the request is
answered 422 with an empty outbound-call trace. -/
theorem c3_bad_date_rejected_witness :
    strptimeYmdOk reqBadFecha.fechaInicioPlaneada = false ∧
    postBugs (fun _ => true) envA reqBadFecha lookupOk createOk =
      (some ⟨422, validationErrorBody⟩, []) :=
  ⟨by decide,
   c3_bad_date_rejected (fun _ => true) envA reqBadFecha lookupOk createOk
     (by decide)⟩

/-- C9: the value sent for `Custom.FechaInicioPlaneada` is the input date with
the literal suffix `"T00:00:00-05:00"` appended, and the value sent for
`Custom.Tareaasociada` is the decimal string rendering of `tareaAsociada`
(each as the unique operation at its path). -/
theorem c9_fecha_tarea_values (req : BugCreateRequest) (org tp : String) :
    (patch_ops req org tp).filter
        (fun p => p.path == "/fields/Custom.FechaInicioPlaneada") =
      [⟨"add", "/fields/Custom.FechaInicioPlaneada",
        .s (req.fechaInicioPlaneada ++ "T00:00:00-05:00")⟩] ∧
    (patch_ops req org tp).filter
        (fun p => p.path == "/fields/Custom.Tareaasociada") =
      [⟨"add", "/fields/Custom.Tareaasociada",
        .s (toString req.tareaAsociada)⟩] :=
  ⟨rfl, rfl⟩

/-- C1 counterexample: an upstream failure at the tester-entitlements lookup
is NOT surfaced as a 502-class gateway error carrying the upstream status and
body — it is answered 404 (tester not found); moreover a non-2xx redirect
status at the projects fetch is treated as success, not as a gateway error. -/
theorem c1_counterexample :
    (postBugs (fun _ => true) envA reqA ⟨500, ⟨none, none⟩⟩ createOk).1 =
      some ⟨404, .obj [("detail", .s testerNotFoundMsg)]⟩ ∧
    (list_projects envA ⟨302, .json (.arr [])⟩).1 = some ⟨200, .arr []⟩ := by
  exact ⟨rfl, rfl⟩

/-- C1 (amended): an upstream status ≥ 400 at the projects fetch or at the
bug-creation write is surfaced as a 502 gateway error carrying the upstream
status and body; at the tester-entitlements lookup it instead makes the lookup
return no identifier, so the request is answered with the 404
tester-not-found error (and the creation call is never made). -/
theorem c1_upstream_errors (e : Env) (org pat : String)
    (hcfg : get_azure_config e = .ok (org, pat)) :
    (∀ resp : UpstreamResp, 400 ≤ resp.status →
      list_projects e resp = (some ⟨502, .obj [("detail", .obj
        [("message", .s "Azure DevOps API error fetching projects"),
         ("azure_status", .i resp.status),
         ("azure_response", parsedOrRaw resp.body)])]⟩, [.projectsFetch])) ∧
    (∀ (r : BugCreateRequest) (lookup : LookupResp) (create : UpstreamResp),
      400 ≤ lookup.status →
      create_bug e r lookup create =
        (some ⟨404, .obj [("detail", .s testerNotFoundMsg)]⟩,
         [.entitlementsLookup TESTER_NAME])) ∧
    (∀ (r : BugCreateRequest) (lookup : LookupResp) (create : UpstreamResp)
      (tp : String),
      find_user_principal_name lookup TESTER_NAME = some tp →
      400 ≤ create.status →
      create_bug e r lookup create = (some ⟨502, .obj [("detail", .obj
        [("message", .s "Azure DevOps API error creating bug"),
         ("azure_status", .i create.status),
         ("azure_response", parsedOrRaw create.body)])]⟩,
       [.entitlementsLookup TESTER_NAME,
        .bugCreate (patch_ops r org tp)])) := by
  refine ⟨?_, ?_, ?_⟩
  · intro resp h
    simp [list_projects, hcfg, h]
  · intro r lookup create h
    have hnone : find_user_principal_name lookup TESTER_NAME = none := by
      simp [find_user_principal_name, h]
    simp [create_bug, hcfg, hnone]
  · intro r lookup create tp hfound h
    simp [create_bug, hcfg, hfound, h]

/-- C1 witness: with a configured environment, a 503 at the projects fetch and
a 400 at the creation write each yield a 502 carrying the upstream status and
body, while a 500 at the lookup yields the 404 tester-not-found response. -/
theorem c1_upstream_errors_witness :
    list_projects envA ⟨503, .text "oops"⟩ = (some ⟨502, .obj [("detail", .obj
      [("message", .s "Azure DevOps API error fetching projects"),
       ("azure_status", .i 503),
       ("azure_response", .obj [("raw_text", .s "oops")])])]⟩,
      [.projectsFetch]) ∧
    create_bug envA reqA ⟨500, ⟨none, none⟩⟩ createOk =
      (some ⟨404, .obj [("detail", .s testerNotFoundMsg)]⟩,
       [.entitlementsLookup TESTER_NAME]) ∧
    create_bug envA reqA lookupOk ⟨400, .json (.s "err")⟩ =
      (some ⟨502, .obj [("detail", .obj
        [("message", .s "Azure DevOps API error creating bug"),
         ("azure_status", .i 400),
         ("azure_response", .s "err")])]⟩,
       [.entitlementsLookup TESTER_NAME,
        .bugCreate (patch_ops reqA "myorg" "t@x.com")]) := by
  refine ⟨?_, ?_, ?_⟩
  · exact (c1_upstream_errors envA "myorg" "pat123" rfl).1
      ⟨503, .text "oops"⟩ (by decide)
  · exact (c1_upstream_errors envA "myorg" "pat123" rfl).2.1
      reqA ⟨500, ⟨none, none⟩⟩ createOk (by decide)
  · exact (c1_upstream_errors envA "myorg" "pat123" rfl).2.2
      reqA lookupOk ⟨400, .json (.s "err")⟩ "t@x.com" rfl (by decide)

/-- C2 counterexample: the built patch document contains the constant
`ValueArea` operation, which is neither an add-operation for a mapped input
field nor the relation-link operation — so the document does not consist of
those operations "and nothing else". -/
theorem c2_counterexample :
    (⟨"add", "/fields/Microsoft.VSTS.Common.ValueArea", .s "Business"⟩ :
        PatchOp) ∈ patch_ops reqA "myorg" "t@x.com" ∧
    "/fields/Microsoft.VSTS.Common.ValueArea" ∉ mappedInputFieldPaths ∧
    ("/fields/Microsoft.VSTS.Common.ValueArea" : String) ≠ "/relations/-" := by
  refine ⟨?_, by decide, by decide⟩
  simp [patch_ops]

/-- C2 (amended): for every valid request the outbound patch document contains
exactly one add-operation per mapped input field at its fixed upstream path,
plus the constant `ValueArea` operation, the resolved-tester operation, and
exactly one relation-link operation whose value references the parent
identifier `userStoryId` — 18 operations in total, and nothing else. -/
theorem c2_patch_document (req : BugCreateRequest) (org tp : String) :
    (patch_ops req org tp).filter (fun p => p.path == "/fields/System.Title") =
      [⟨"add", "/fields/System.Title", .s req.title⟩] ∧
    (patch_ops req org tp).filter
        (fun p => p.path == "/fields/System.AssignedTo") =
      [⟨"add", "/fields/System.AssignedTo", .s req.assignedTo⟩] ∧
    (patch_ops req org tp).filter
        (fun p => p.path == "/fields/Microsoft.VSTS.TCM.ReproSteps") =
      [⟨"add", "/fields/Microsoft.VSTS.TCM.ReproSteps", .s req.reproSteps⟩] ∧
    (patch_ops req org tp).filter
        (fun p => p.path == "/fields/Microsoft.VSTS.Scheduling.Effort") =
      [⟨"add", "/fields/Microsoft.VSTS.Scheduling.Effort", .f req.effort⟩] ∧
    (patch_ops req org tp).filter
        (fun p => p.path == "/fields/Microsoft.VSTS.Common.Priority") =
      [⟨"add", "/fields/Microsoft.VSTS.Common.Priority", .i req.priority⟩] ∧
    (patch_ops req org tp).filter
        (fun p => p.path == "/fields/Microsoft.VSTS.Common.Severity") =
      [⟨"add", "/fields/Microsoft.VSTS.Common.Severity", .s req.severity⟩] ∧
    (patch_ops req org tp).filter
        (fun p => p.path == "/fields/Microsoft.VSTS.Common.Activity") =
      [⟨"add", "/fields/Microsoft.VSTS.Common.Activity", .s req.activity⟩] ∧
    (patch_ops req org tp).filter
        (fun p => p.path == "/fields/Custom.Cliente") =
      [⟨"add", "/fields/Custom.Cliente", .s req.cliente⟩] ∧
    (patch_ops req org tp).filter
        (fun p => p.path == "/fields/Custom.Tipodeerror") =
      [⟨"add", "/fields/Custom.Tipodeerror", .s req.tipoDeError⟩] ∧
    (patch_ops req org tp).filter
        (fun p => p.path == "/fields/Custom.FechaInicioPlaneada") =
      [⟨"add", "/fields/Custom.FechaInicioPlaneada",
        .s (req.fechaInicioPlaneada ++ "T00:00:00-05:00")⟩] ∧
    (patch_ops req org tp).filter
        (fun p => p.path == "/fields/Custom.ResponsableBug") =
      [⟨"add", "/fields/Custom.ResponsableBug", .s req.responsableBug⟩] ∧
    (patch_ops req org tp).filter
        (fun p =>
          p.path == "/fields/Custom.33ece249-f3ca-4b23-a86a-0c605534caa3") =
      [⟨"add", "/fields/Custom.33ece249-f3ca-4b23-a86a-0c605534caa3",
        .s req.aplicacion⟩] ∧
    (patch_ops req org tp).filter
        (fun p => p.path == "/fields/Custom.Tareaasociada") =
      [⟨"add", "/fields/Custom.Tareaasociada",
        .s (toString req.tareaAsociada)⟩] ∧
    (patch_ops req org tp).filter
        (fun p =>
          p.path == "/fields/Custom.f82dc49a-eb67-44c3-ac65-de18fee91f0b") =
      [⟨"add", "/fields/Custom.f82dc49a-eb67-44c3-ac65-de18fee91f0b",
        .s req.versionAplicacion⟩] ∧
    (patch_ops req org tp).filter
        (fun p =>
          p.path == "/fields/Custom.Funcionalidadquepresentaelerror") =
      [⟨"add", "/fields/Custom.Funcionalidadquepresentaelerror",
        .s req.funcionalidad⟩] ∧
    (patch_ops req org tp).filter
        (fun p => p.path == "/fields/Microsoft.VSTS.Common.ValueArea") =
      [⟨"add", "/fields/Microsoft.VSTS.Common.ValueArea", .s "Business"⟩] ∧
    (patch_ops req org tp).filter
        (fun p => p.path == "/fields/Custom.Tester") =
      [⟨"add", "/fields/Custom.Tester", .s tp⟩] ∧
    (patch_ops req org tp).filter (fun p => p.path == "/relations/-") =
      [⟨"add", "/relations/-", .obj
        [("rel", .s "System.LinkTypes.Hierarchy-Reverse"),
         ("url", .s ("https://dev.azure.com/" ++ org ++ "/" ++ req.project ++
           "/_apis/wit/workItems/" ++ toString req.userStoryId)),
         ("attributes", .obj [("comment", .s "Parent User Story")])]⟩] ∧
    (patch_ops req org tp).length = 18 :=
  ⟨rfl, rfl, rfl, rfl, rfl, rfl, rfl, rfl, rfl, rfl, rfl, rfl, rfl, rfl, rfl,
   rfl, rfl, rfl, rfl⟩

/-- C5: a tester-entitlements response without a case-insensitive match of the
fixed tester name makes `POST /bugs` answer 404 with a message naming the
searched identifier, and the bug-creation call is never made. -/
theorem c5_tester_miss (emailOk : String → Bool) (e : Env) (org pat : String)
    (r : BugCreateRequest) (lookup : LookupResp) (create : UpstreamResp)
    (hcfg : get_azure_config e = .ok (org, pat))
    (hval : validateBugRequest emailOk r = true)
    (hmiss : ∀ u ∈ extractUsers lookup.data,
      stripLower (effectiveName u) ≠ stripLower TESTER_NAME) :
    postBugs emailOk e r lookup create =
      (some ⟨404, .obj [("detail", .s ("No se pudo encontrar el usuario Tester '"
        ++ TESTER_NAME ++ "' en la organización de Azure DevOps."))]⟩,
       [.entitlementsLookup TESTER_NAME]) := by
  have hnone : find_user_principal_name lookup TESTER_NAME = none := by
    unfold find_user_principal_name
    split
    · rfl
    · exact lookupUser_eq_none_of_no_match _ _ hmiss
  simp [postBugs, hval, create_bug, hcfg, hnone, testerNotFoundMsg]

/-- C5 witness: a response whose only member is a different person yields the
404 with the tester's name in the message, and only the lookup call in the
trace. -/
theorem c5_tester_miss_witness :
    postBugs (fun _ => true) envA reqA lookupMiss createOk =
      (some ⟨404, .obj [("detail", .s ("No se pudo encontrar el usuario Tester '"
        ++ TESTER_NAME ++ "' en la organización de Azure DevOps."))]⟩,
       [.entitlementsLookup TESTER_NAME]) :=
  c5_tester_miss (fun _ => true) envA "myorg" "pat123" reqA lookupMiss createOk
    rfl (by decide) (by decide)

/-- C6: `GET /projects` returns the upstream JSON verbatim with status 200
when the upstream status is < 400, and answers 502 with a body embedding the
upstream status 400 and the upstream response body when the upstream status
is 400. -/
theorem c6_projects (e : Env) (org pat : String)
    (hcfg : get_azure_config e = .ok (org, pat)) :
    (∀ (stat : Nat) (j : JValue), stat < 400 →
      list_projects e ⟨stat, .json j⟩ = (some ⟨200, j⟩, [.projectsFetch])) ∧
    (∀ body : RespBody,
      list_projects e ⟨400, body⟩ = (some ⟨502, .obj [("detail", .obj
        [("message", .s "Azure DevOps API error fetching projects"),
         ("azure_status", .i 400),
         ("azure_response", parsedOrRaw body)])]⟩, [.projectsFetch])) := by
  constructor
  · intro stat j h
    have h' : ¬ 400 ≤ stat := by omega
    simp [list_projects, hcfg, h']
  · intro body
    simp [list_projects, hcfg]

/-- C6 witness: a 200 upstream with a project list is forwarded verbatim, and
a 400 upstream yields a 502 embedding status 400 and the upstream body. -/
theorem c6_projects_witness :
    list_projects envA ⟨200, .json (.arr [.s "p1"])⟩ =
      (some ⟨200, .arr [.s "p1"]⟩, [.projectsFetch]) ∧
    list_projects envA ⟨400, .json (.s "bad")⟩ =
      (some ⟨502, .obj [("detail", .obj
        [("message", .s "Azure DevOps API error fetching projects"),
         ("azure_status", .i 400),
         ("azure_response", .s "bad")])]⟩, [.projectsFetch]) :=
  ⟨(c6_projects envA "myorg" "pat123" rfl).1 200 (.arr [.s "p1"]) (by omega),
   (c6_projects envA "myorg" "pat123" rfl).2 (.json (.s "bad"))⟩

/-- C7 counterexample: with the organization variable absent, a `POST /bugs`
request with an invalid body (priority 5) is answered 422 by request
validation, not with a 500-class configuration-error response — so not every
request is answered 500. -/
theorem c7_counterexample :
    envNoOrg.org = none ∧
    postBugs (fun _ => true) envNoOrg reqPrio5 lookupOk createOk =
      (some ⟨422, validationErrorBody⟩, []) ∧
    (422 : Nat) ≠ 500 := by
  refine ⟨rfl, ?_, by decide⟩
  rfl

/-- C7 (amended): if either configuration variable is absent, every
`GET /projects` request and every `POST /bugs` request whose body passes input
validation is answered 500 carrying the configuration error message, with zero
outbound calls (a `POST /bugs` whose body fails validation is answered 422 by
validation first). -/
theorem c7_config_missing (e : Env) (h : e.org = none ∨ e.pat = none) :
    (∀ resp : UpstreamResp,
      list_projects e resp =
        (some ⟨500, .obj [("detail", .s configErrorMsg)]⟩, [])) ∧
    (∀ (emailOk : String → Bool) (r : BugCreateRequest) (lookup : LookupResp)
      (create : UpstreamResp), validateBugRequest emailOk r = true →
      postBugs emailOk e r lookup create =
        (some ⟨500, .obj [("detail", .s configErrorMsg)]⟩, [])) := by
  have hcfg : get_azure_config e = .error configErrorMsg := by
    unfold get_azure_config
    rcases h with h | h <;> simp [h]
  constructor
  · intro resp
    simp [list_projects, hcfg]
  · intro emailOk r lookup create hval
    simp [postBugs, hval, create_bug, hcfg]

/-- C7 witness: with the organization variable unset, both endpoints answer
500 with the configuration message and make no outbound call. -/
theorem c7_config_missing_witness :
    list_projects envNoOrg ⟨200, .json (.arr [])⟩ =
      (some ⟨500, .obj [("detail", .s configErrorMsg)]⟩, []) ∧
    postBugs (fun _ => true) envNoOrg reqA lookupOk createOk =
      (some ⟨500, .obj [("detail", .s configErrorMsg)]⟩, []) :=
  ⟨(c7_config_missing envNoOrg (Or.inl rfl)).1 ⟨200, .json (.arr [])⟩,
   (c7_config_missing envNoOrg (Or.inl rfl)).2 (fun _ => true) reqA lookupOk
     createOk (by decide)⟩

/-- C8: when the tester lookup succeeds and the creation call returns a status
< 400, `POST /bugs` answers 201 with the upstream body as JSON, or with
`{"raw_text": <body text>}` when the body is not parseable as JSON. -/
theorem c8_created (emailOk : String → Bool) (e : Env) (org pat tp : String)
    (r : BugCreateRequest) (lookup : LookupResp) (create : UpstreamResp)
    (hcfg : get_azure_config e = .ok (org, pat))
    (hval : validateBugRequest emailOk r = true)
    (hfound : find_user_principal_name lookup TESTER_NAME = some tp)
    (hstat : create.status < 400) :
    (∀ j : JValue, create.body = .json j →
      postBugs emailOk e r lookup create = (some ⟨201, j⟩,
        [.entitlementsLookup TESTER_NAME, .bugCreate (patch_ops r org tp)])) ∧
    (∀ t : String, create.body = .text t →
      postBugs emailOk e r lookup create =
        (some ⟨201, .obj [("raw_text", .s t)]⟩,
         [.entitlementsLookup TESTER_NAME,
          .bugCreate (patch_ops r org tp)])) := by
  have h' : ¬ 400 ≤ create.status := by omega
  constructor
  · intro j hb
    simp [postBugs, hval, create_bug, hcfg, hfound, h', hb]
  · intro t hb
    simp [postBugs, hval, create_bug, hcfg, hfound, h', hb]

/-- C8 witness: with tester principal `"t@x.com"` resolved, a creation call
returning `{"id": 123}` yields 201 with body `{"id": 123}`, and one returning
an unparseable body yields 201 with `{"raw_text": "plain"}`. -/
theorem c8_created_witness :
    postBugs (fun _ => true) envA reqA lookupOk createOk =
      (some ⟨201, .obj [("id", .i 123)]⟩,
       [.entitlementsLookup TESTER_NAME,
        .bugCreate (patch_ops reqA "myorg" "t@x.com")]) ∧
    postBugs (fun _ => true) envA reqA lookupOk ⟨200, .text "plain"⟩ =
      (some ⟨201, .obj [("raw_text", .s "plain")]⟩,
       [.entitlementsLookup TESTER_NAME,
        .bugCreate (patch_ops reqA "myorg" "t@x.com")]) :=
  ⟨(c8_created (fun _ => true) envA "myorg" "pat123" "t@x.com" reqA lookupOk
      createOk rfl (by decide) rfl (by decide)).1 (.obj [("id", .i 123)]) rfl,
   (c8_created (fun _ => true) envA "myorg" "pat123" "t@x.com" reqA lookupOk
      ⟨200, .text "plain"⟩ rfl (by decide) rfl (by decide)).2 "plain" rfl⟩

/-- C10: the lookup compares names after stripping surrounding whitespace and
lowercasing both sides; a matching user yields its truthy `principalName`,
else its truthy `mailAddress`, and with neither the user is skipped — so the
lookup can return no identifier even when a name match exists (last conjunct:
a whitespace/case-variant match with no truthy identifier yields `none`). -/
theorem c10_lookup_semantics (u : UserRecord) (rest : List UserRecord)
    (dn : String) :
    (stripLower (effectiveName u) = stripLower dn →
      ∀ p, truthyStr u.principalName = some p →
        lookupUser (u :: rest) dn = some p) ∧
    (stripLower (effectiveName u) = stripLower dn →
      truthyStr u.principalName = none →
      ∀ m, truthyStr u.mailAddress = some m →
        lookupUser (u :: rest) dn = some m) ∧
    (stripLower (effectiveName u) = stripLower dn →
      truthyStr u.principalName = none → truthyStr u.mailAddress = none →
      lookupUser (u :: rest) dn = lookupUser rest dn) ∧
    (stripLower (effectiveName matchNoId) = stripLower TESTER_NAME ∧
      lookupUser [matchNoId] TESTER_NAME = none) := by
  refine ⟨?_, ?_, ?_, by decide, by decide⟩
  · intro hm p hp
    simp [lookupUser, hm, hp]
  · intro hm hp m hmail
    simp [lookupUser, hm, hp, hmail]
  · intro hm hp hmail
    simp [lookupUser, hm, hp, hmail]

/-- C10 witness: a whitespace/case-variant match returns its `principalName`;
with an empty (falsy) `principalName` the `mailAddress` is returned; a match
with neither truthy identifier is skipped in favour of the rest of the
list. -/
theorem c10_lookup_semantics_witness :
    lookupUser [userFull] TESTER_NAME = some "apn@x.com" ∧
    lookupUser [userNoPrincipal] TESTER_NAME = some "m2@x.com" ∧
    lookupUser [matchNoId, userFull] TESTER_NAME =
      lookupUser [userFull] TESTER_NAME :=
  ⟨(c10_lookup_semantics userFull [] TESTER_NAME).1 (by decide) "apn@x.com"
      (by decide),
   (c10_lookup_semantics userNoPrincipal [] TESTER_NAME).2.1 (by decide)
      (by decide) "m2@x.com" (by decide),
   (c10_lookup_semantics matchNoId [userFull] TESTER_NAME).2.2.1 (by decide)
      (by decide) (by decide)⟩

end ProxyApi
